import Mathlib

/-!
Shallow embedding of the gVisor `tpuproxy` device-passthrough core
(`pkg/sentry/devices/tpuproxy/vfio.go` and the TPU/PCI mmap mediation
file), together with proofs of the specification's claims about it.

The two source files define:
* `tpuFD` / `pciDeviceFD`: passthrough device descriptors with a
  `Translate` memory-mapping callback;
* `tpuFDMemmapFile` / `pciDeviceFdMemmapFile`: device memory backings
  whose `MapInternal` always fails with `EINVAL`;
* `vfioFd`: the VFIO container control descriptor with `Release`,
  `EventRegister`, `EventUnregister`, `Ioctl` and `checkExtension`.

External collaborators that the Go code calls (the `waiter` queue, the
`fdnotifier` readiness bridge, the host `ioctl` passthrough and the
Linux ABI constants) are not part of the two source files; they are
modelled from the specification's description of their interfaces, with
doc comments marking each such definition.
-/

namespace Tpuproxy

/-- `hostarch.AccessType`: requested access permissions. -/
structure AccessType where
  read : Bool
  write : Bool
  execute : Bool
deriving DecidableEq, Repr

/-- `memmap.MappableRange` / `memmap.FileRange`: a `[Start, End)` range of
64-bit offsets.  Machine `uint64` values are modelled as `Nat`; no
arithmetic in the embedded code can overflow them. -/
structure MappableRange where
  Start : Nat
  End : Nat
deriving DecidableEq, Repr

/-- `memmap.FileRange` has the same shape as `memmap.MappableRange`. -/
abbrev FileRange := MappableRange

/-- The accelerator passthrough device descriptor (`tpuFD`): the only
state the embedded methods depend on is the owned host descriptor. -/
structure tpuFD where
  hostFD : Int
deriving DecidableEq, Repr

/-- The generic PCI passthrough device descriptor (`pciDeviceFD`). -/
structure pciDeviceFD where
  hostFD : Int
deriving DecidableEq, Repr

/-- Identity of the `memmap.File` stored in a translation record: each
descriptor variant exposes its own embedded memory backing object. -/
inductive MemmapFileRef
  | tpu (fd : tpuFD)
  | pci (fd : pciDeviceFD)
deriving DecidableEq, Repr

/-- `memmap.Translation`: one translation record handed back to the
memory manager. -/
structure Translation where
  Source : MappableRange
  File : MemmapFileRef
  Offset : Nat
  Perms : AccessType
deriving DecidableEq, Repr

/-- Errors surfaced by the embedded code.  `host` wraps an OS-level
errno from a failed host call. -/
inductive Error
  | EINVAL
  | ENOSYS
  | host (errno : Nat)
deriving DecidableEq, Repr

/-- Modelled from the spec: `safemem.Block`, one internally addressable
memory region.  `MapInternal` never produces one, so only its shape
matters. -/
structure Block where
  addr : Nat
  length : Nat
deriving DecidableEq, Repr

/-- Modelled from the spec: `safemem.BlockSeq`; its Go zero value
`safemem.BlockSeq{}` is the empty sequence. -/
structure BlockSeq where
  blocks : List Block
deriving DecidableEq, Repr

/-- The result of a `MapInternal` call: the returned block sequence, the
returned error, and the diagnostic log lines emitted before returning. -/
structure MapInternalResult where
  blocks : BlockSeq
  err : Option Error
  logs : List String
deriving DecidableEq, Repr

/-- `tpuFDMemmapFile`: the device memory backing embedded in a `tpuFD`,
holding a non-owning back-reference to its descriptor. -/
structure tpuFDMemmapFile where
  fd : tpuFD
deriving DecidableEq, Repr

/-- `pciDeviceFdMemmapFile`: the device memory backing embedded in a
`pciDeviceFD`. -/
structure pciDeviceFdMemmapFile where
  fd : pciDeviceFD
deriving DecidableEq, Repr

/-- `tpuFDMemmapFile.MapInternal`: logs a traceback and returns
`(safemem.BlockSeq{}, linuxerr.EINVAL)`. -/
def tpuFDMemmapFile.MapInternal (mf : tpuFDMemmapFile) (fr : FileRange)
    (acc : AccessType) : MapInternalResult :=
  { blocks := { blocks := [] }
    err := some Error.EINVAL
    logs := ["tpuproxy: rejecting tpuFdMemmapFile.MapInternal"] }

/-- `pciDeviceFdMemmapFile.MapInternal`: logs a traceback and returns
`(safemem.BlockSeq{}, linuxerr.EINVAL)`. -/
def pciDeviceFdMemmapFile.MapInternal (mf : pciDeviceFdMemmapFile)
    (fr : FileRange) (acc : AccessType) : MapInternalResult :=
  { blocks := { blocks := [] }
    err := some Error.EINVAL
    logs := ["tpuproxy: rejecting pciDeviceFdMemmapFile.MapInternal"] }

/-- `tpuFDMemmapFile.FD`: the raw host descriptor of the owning device
descriptor. -/
def tpuFDMemmapFile.FD (mf : tpuFDMemmapFile) : Int :=
  mf.fd.hostFD

/-- `pciDeviceFdMemmapFile.FD`: the raw host descriptor of the owning
device descriptor. -/
def pciDeviceFdMemmapFile.FD (mf : pciDeviceFdMemmapFile) : Int :=
  mf.fd.hostFD

/-- `tpuFD.Translate`: returns one translation record covering the
`optional` range, backed by the descriptor's own memmap file, and no
error. -/
def tpuFD.Translate (fd : tpuFD) (required optional : MappableRange)
    (acc : AccessType) : List Translation × Option Error :=
  ([{ Source := optional
      File := MemmapFileRef.tpu fd
      Offset := optional.Start
      Perms := acc }], none)

/-- `pciDeviceFD.Translate`: returns one translation record covering the
`optional` range, backed by the descriptor's own memmap file, and no
error. -/
def pciDeviceFD.Translate (fd : pciDeviceFD) (required optional : MappableRange)
    (acc : AccessType) : List Translation × Option Error :=
  ([{ Source := optional
      File := MemmapFileRef.pci fd
      Offset := optional.Start
      Perms := acc }], none)

/-- Modelled from the spec: the Linux ABI constant
`linux.VFIO_TYPE1_IOMMU` (from the repository's `pkg/abi/linux`, not in
the two source files); the type-1 IOMMU model code, value 1 in the
Linux VFIO ABI. -/
def VFIO_TYPE1_IOMMU : Int := 1

/-- Modelled from the spec: the Linux ABI constant
`linux.VFIO_SPAPR_TCE_IOMMU`; the SPAPR-TCE IOMMU model code, value 2
in the Linux VFIO ABI. -/
def VFIO_SPAPR_TCE_IOMMU : Int := 2

/-- Modelled from the spec: the Linux ABI constant
`linux.VFIO_TYPE1v2_IOMMU`; the type-1 v2 IOMMU model code, value 3 in
the Linux VFIO ABI. -/
def VFIO_TYPE1v2_IOMMU : Int := 3

/-- Modelled from the spec: the Linux ABI constant
`linux.VFIO_CHECK_EXTENSION`, the only recognized control command;
its value in the Linux VFIO ABI is `_IO(';', 100 + 1)` = 0x3b65. -/
def VFIO_CHECK_EXTENSION : Nat := 0x3b65

/-- `extension.String`: canonical display name of an extension code;
codes outside the allow-list map to the empty string. -/
def extensionString (e : Int) : String :=
  if e = VFIO_TYPE1_IOMMU then "VFIO_TYPE1_IOMMU"
  else if e = VFIO_SPAPR_TCE_IOMMU then "VFIO_SPAPR_TCE_IOMMU"
  else if e = VFIO_TYPE1v2_IOMMU then "VFIO_TYPE1v2_IOMMU"
  else ""

/-- A waiter entry (`waiter.Entry`): identified by identity (a pointer
in Go), carrying the readiness-event interest mask. -/
structure Entry where
  id : Nat
  mask : Nat
deriving DecidableEq, Repr

/-- The VFIO container control descriptor (`vfioFd`): the owned host
descriptor, the internal waiter queue, and the host-level readiness
subscription mask maintained on its behalf by the `fdnotifier` bridge. -/
structure vfioFd where
  hostFd : Int
  queue : List Entry
  hostSub : Nat
deriving DecidableEq, Repr

/-- Modelled from the spec: the host passthrough call interface
(`ioctlInvoke`, not in the two source files) — "a generic typed ioctl
invocation taking a host descriptor, a command code, and a value,
returning a typed result or an OS-level error".  The host's behavior is
an oracle parameter: it maps (host fd, command, argument) to either a
result or an errno. -/
def HostIoctl : Type :=
  Int → Nat → Int → Except Nat Nat

/-- One recorded host passthrough call: (host fd, command, argument). -/
abbrev HostCall := Int × Nat × Int

/-- The observable result of `checkExtension`: the returned value and
error, the host calls issued, and the warning log lines emitted. -/
structure CheckExtResult where
  ret : Nat
  err : Option Error
  hostCalls : List HostCall
  logs : List String
deriving DecidableEq, Repr

/-- `vfioFd.checkExtension`: validates the code against the allow-list
of three IOMMU models; for an allowed code issues the host
extension-check call, logging a warning and propagating the error on
host failure, and returning the host's result verbatim on success; for
any other code returns `EINVAL` with no host call. -/
def vfioFd.checkExtension (host : HostIoctl) (fd : vfioFd) (ext : Int) :
    CheckExtResult :=
  if ext = VFIO_TYPE1_IOMMU ∨ ext = VFIO_SPAPR_TCE_IOMMU ∨
      ext = VFIO_TYPE1v2_IOMMU then
    match host fd.hostFd VFIO_CHECK_EXTENSION ext with
    | Except.error errno =>
      { ret := 0
        err := some (Error.host errno)
        hostCalls := [(fd.hostFd, VFIO_CHECK_EXTENSION, ext)]
        logs := ["check VFIO extension " ++ extensionString ext] }
    | Except.ok r =>
      { ret := r
        err := none
        hostCalls := [(fd.hostFd, VFIO_CHECK_EXTENSION, ext)]
        logs := [] }
  else
    { ret := 0, err := some Error.EINVAL, hostCalls := [], logs := [] }

/-- `arch.SyscallArgument.Uint`: the low 32 bits of a syscall register,
as an unsigned value. -/
def argUint (v : Nat) : Nat := v % 2 ^ 32

/-- `arch.SyscallArgument.Int`: the low 32 bits of a syscall register,
interpreted as a signed 32-bit value. -/
def argInt (v : Nat) : Int :=
  let m : Nat := v % 2 ^ 32
  if m < 2 ^ 31 then (m : Int) else (m : Int) - 2 ^ 32

/-- `arch.SyscallArguments`: the raw 64-bit syscall argument registers;
`Ioctl` reads only registers 1 and 2. -/
structure SyscallArguments where
  arg0 : Nat
  arg1 : Nat
  arg2 : Nat
  arg3 : Nat
  arg4 : Nat
  arg5 : Nat
deriving DecidableEq, Repr

/-- A task (`kernel.Task`); `Ioctl` only tests its presence. -/
structure Task where
  id : Nat
deriving DecidableEq, Repr

/-- `context.Context` as far as `Ioctl` consumes it:
`kernel.TaskFromContext` yields the active task, if any. -/
structure Context where
  task : Option Task
deriving DecidableEq, Repr

/-- How an `Ioctl` call ended: a Go panic, or a normal
`(uintptr, error)` return. -/
inductive IoctlOutcome
  | panicked (msg : String)
  | ret (val : Nat) (err : Option Error)
deriving DecidableEq, Repr

/-- The observable result of an `Ioctl` dispatch: the outcome, the host
calls issued, the guest memory addresses accessed (always none — the
command argument comes from the raw syscall register), and log lines. -/
structure IoctlResult where
  outcome : IoctlOutcome
  hostCalls : List HostCall
  guestMemAccesses : List Nat
  logs : List String
deriving DecidableEq, Repr

/-- `vfioFd.Ioctl`: panics when called without a task context; otherwise
dispatches `VFIO_CHECK_EXTENSION` to `checkExtension` and fails every
other command with `ENOSYS`.  It never touches guest memory. -/
def vfioFd.Ioctl (host : HostIoctl) (fd : vfioFd) (ctx : Context)
    (args : SyscallArguments) : IoctlResult :=
  let cmd := argUint args.arg1
  match ctx.task with
  | none =>
    { outcome := IoctlOutcome.panicked "Ioctl should be called from a task context"
      hostCalls := []
      guestMemAccesses := []
      logs := [] }
  | some _ =>
    if cmd = VFIO_CHECK_EXTENSION then
      let r := vfioFd.checkExtension host fd (argInt args.arg2)
      { outcome := IoctlOutcome.ret r.ret r.err
        hostCalls := r.hostCalls
        guestMemAccesses := []
        logs := r.logs }
    else
      { outcome := IoctlOutcome.ret 0 (some Error.ENOSYS)
        hostCalls := []
        guestMemAccesses := []
        logs := [] }

/-- Modelled from the spec: `waiter.EventHUp`, the hang-up readiness
event; its value in the Linux epoll ABI (`EPOLLHUP`) is 0x10. -/
def EventHUp : Nat := 0x10

/-- Modelled from the spec: the combined interest mask of a waiter
queue — "the union of interests of all remaining waiters" — which the
readiness bridge installs as the host-level subscription on each
resync. -/
def queueMask (q : List Entry) : Nat :=
  q.foldr (fun e m => e.mask ||| m) 0

/-- Modelled from the spec: `fdnotifier.UpdateFD`, the readiness-bridge
`resync(fd)` operation.  On success it re-synchronizes the host-level
subscription to the union of the waiters' interests; the host side may
fail, which the oracle argument `res` decides (`none` = success,
`some errno` = failure, in which case the subscription is unchanged). -/
def updateFD (res : Option Nat) (s : vfioFd) : Except Nat vfioFd :=
  match res with
  | some errno => Except.error errno
  | none => Except.ok { s with hostSub := queueMask s.queue }

/-- Modelled from the spec: `waiter.Queue.EventRegister` appends the
entry to the internal queue. -/
def queuePush (q : List Entry) (e : Entry) : List Entry :=
  q ++ [e]

/-- Modelled from the spec: `waiter.Queue.EventUnregister` unlinks the
entry's node from the internal queue. -/
def queueRemove (q : List Entry) (e : Entry) : List Entry :=
  q.erase e

/-- `vfioFd.EventRegister`: adds the waiter to the internal queue, then
resynchronizes the host subscription; on resync failure the queue
addition is rolled back and the error returned. -/
def vfioFd.EventRegister (res : Option Nat) (s : vfioFd) (e : Entry) :
    vfioFd × Option Nat :=
  let s1 := { s with queue := queuePush s.queue e }
  match updateFD res s1 with
  | Except.error errno => ({ s1 with queue := queueRemove s1.queue e }, some errno)
  | Except.ok s2 => (s2, none)

/-- How an `EventUnregister` call ended: the updated descriptor state,
or a Go panic.  The Go method returns nothing, so there is no error
constructor. -/
inductive UnregisterOutcome
  | ok (s : vfioFd)
  | panicked (msg : String)
deriving DecidableEq, Repr

/-- `vfioFd.EventUnregister`: removes the waiter from the internal
queue, then resynchronizes the host subscription; on resync failure it
panics. -/
def vfioFd.EventUnregister (res : Option Nat) (s : vfioFd) (e : Entry) :
    UnregisterOutcome :=
  let s1 := { s with queue := queueRemove s.queue e }
  match updateFD res s1 with
  | Except.error errno => UnregisterOutcome.panicked ("UpdateFD:" ++ toString errno)
  | Except.ok s2 => UnregisterOutcome.ok s2

/-- One observable step of `vfioFd.Release`, in program order:
unsubscribing the host descriptor from the readiness bridge
(`fdnotifier.RemoveFD`), broadcasting an event to the listed waiters
(`queue.Notify`; modelled from the spec, the broadcast reaches all
currently registered waiters), and closing the host descriptor
(`unix.Close`). -/
inductive ReleaseStep
  | removeNotifier (fd : Int)
  | notifyWaiters (mask : Nat) (waiters : List Entry)
  | closeHost (fd : Int)
deriving DecidableEq, Repr

/-- `vfioFd.Release`: unsubscribes from the readiness bridge, broadcasts
`EventHUp` to the registered waiters, then closes the host descriptor —
in that order. -/
def vfioFd.Release (s : vfioFd) : List ReleaseStep :=
  [ReleaseStep.removeNotifier s.hostFd,
   ReleaseStep.notifyWaiters EventHUp s.queue,
   ReleaseStep.closeHost s.hostFd]

/-- In a release trace, step `i` delivers a hang-up event to waiter
`e`: the step is a broadcast whose mask is `EventHUp` and whose waiter
list contains `e`. -/
def deliversHUpAt (tr : List ReleaseStep) (i : Nat) (e : Entry) : Prop :=
  ∃ ws, tr.get? i = some (ReleaseStep.notifyWaiters EventHUp ws) ∧ e ∈ ws

/-- In a release trace, step `j` closes host descriptor `fd`. -/
def closesAt (tr : List ReleaseStep) (j : Nat) (fd : Int) : Prop :=
  tr.get? j = some (ReleaseStep.closeHost fd)

end Tpuproxy

namespace Tpuproxy

/-- C1: For every file range and every access type, `MapInternal` on a
device memory backing (both the accelerator variant and the PCI variant)
fails with an invalid-argument error, logs a diagnostic trace before
returning, and returns an empty block sequence rather than any usable
memory region. -/
theorem mapInternal_always_einval_empty_logged
    (tmf : tpuFDMemmapFile) (pmf : pciDeviceFdMemmapFile)
    (fr : FileRange) (acc : AccessType) :
    ((tmf.MapInternal fr acc).err = some Error.EINVAL ∧
      (tmf.MapInternal fr acc).blocks.blocks = [] ∧
      (tmf.MapInternal fr acc).logs ≠ []) ∧
    ((pmf.MapInternal fr acc).err = some Error.EINVAL ∧
      (pmf.MapInternal fr acc).blocks.blocks = [] ∧
      (pmf.MapInternal fr acc).logs ≠ []) := by
  refine ⟨⟨rfl, rfl, ?_⟩, ⟨rfl, rfl, ?_⟩⟩ <;> simp [tpuFDMemmapFile.MapInternal,
    pciDeviceFdMemmapFile.MapInternal]

/-- C4: For every pair of required and optional ranges and every access
type, `Translate` on a passthrough device descriptor (both variants)
never fails and returns exactly one translation record whose source
range equals the optional range, whose file is the descriptor's own
memory backing, whose offset equals the start of the optional range, and
whose permissions equal the requested access, regardless of how the
required range relates to the optional range. -/
theorem translate_single_optional_record
    (tfd : tpuFD) (pfd : pciDeviceFD)
    (required optional : MappableRange) (acc : AccessType) :
    tfd.Translate required optional acc =
      ([{ Source := optional
          File := MemmapFileRef.tpu tfd
          Offset := optional.Start
          Perms := acc }], none) ∧
    pfd.Translate required optional acc =
      ([{ Source := optional
          File := MemmapFileRef.pci pfd
          Offset := optional.Start
          Perms := acc }], none) :=
  ⟨rfl, rfl⟩

/-- A host oracle answering every passthrough call with result 7;
used to instantiate theorems at concrete inputs. -/
def hostOk7 : HostIoctl := fun _ _ _ => Except.ok 7

/-- A concrete control descriptor with host descriptor 3, an empty
waiter queue and an empty host subscription. -/
def fd3 : vfioFd := { hostFd := 3, queue := [], hostSub := 0 }

/-- Appending a fresh element and erasing it again restores the list. -/
theorem erase_append_singleton {α : Type} [DecidableEq α] (l : List α) (e : α)
    (h : e ∉ l) : (l ++ [e]).erase e = l := by
  rw [List.erase_append_right _ h]
  simp

/-- Whenever `checkExtension` returns an error, its result value is 0. -/
theorem checkExtension_err_ret_zero (host : HostIoctl) (fd : vfioFd) (ext : Int)
    (hne : (vfioFd.checkExtension host fd ext).err ≠ none) :
    (vfioFd.checkExtension host fd ext).ret = 0 := by
  by_cases h : ext = VFIO_TYPE1_IOMMU ∨ ext = VFIO_SPAPR_TCE_IOMMU ∨
      ext = VFIO_TYPE1v2_IOMMU
  · cases hh : host fd.hostFd VFIO_CHECK_EXTENSION ext with
    | error errno => simp [vfioFd.checkExtension, h, hh]
    | ok r => exact absurd (by simp [vfioFd.checkExtension, h, hh]) hne
  · simp [vfioFd.checkExtension, h]

/-- C2: `check-extension`, for each of the three allowed extension codes
(type-1, SPAPR-TCE, type-1v2), issues exactly one host extension-check
call passing that code as a 32-bit signed value and, on host success,
returns the host's result unchanged; for every other code it returns
invalid-argument and makes no host call at all. -/
theorem checkExtension_allowlist_one_host_call
    (host : HostIoctl) (fd : vfioFd) (ext : Int) :
    ((ext = VFIO_TYPE1_IOMMU ∨ ext = VFIO_SPAPR_TCE_IOMMU ∨
        ext = VFIO_TYPE1v2_IOMMU) →
      (vfioFd.checkExtension host fd ext).hostCalls =
        [(fd.hostFd, VFIO_CHECK_EXTENSION, ext)] ∧
      ∀ v, host fd.hostFd VFIO_CHECK_EXTENSION ext = Except.ok v →
        (vfioFd.checkExtension host fd ext).ret = v ∧
        (vfioFd.checkExtension host fd ext).err = none) ∧
    (¬(ext = VFIO_TYPE1_IOMMU ∨ ext = VFIO_SPAPR_TCE_IOMMU ∨
        ext = VFIO_TYPE1v2_IOMMU) →
      (vfioFd.checkExtension host fd ext).err = some Error.EINVAL ∧
      (vfioFd.checkExtension host fd ext).hostCalls = []) := by
  constructor
  · intro h
    constructor
    · cases hh : host fd.hostFd VFIO_CHECK_EXTENSION ext with
      | error errno => simp [vfioFd.checkExtension, h, hh]
      | ok r => simp [vfioFd.checkExtension, h, hh]
    · intro v hv
      constructor <;> simp [vfioFd.checkExtension, h, hv]
  · intro h
    constructor <;> simp [vfioFd.checkExtension, h]

/-- Witness for C2 at concrete inputs: code 1 is allowed and forwarded
once to a host answering 7; code 9999 is rejected with no host call. -/
theorem checkExtension_allowlist_one_host_call_witness :
    (vfioFd.checkExtension hostOk7 fd3 1).hostCalls =
      [(3, VFIO_CHECK_EXTENSION, 1)] ∧
    (vfioFd.checkExtension hostOk7 fd3 1).ret = 7 ∧
    (vfioFd.checkExtension hostOk7 fd3 1).err = none ∧
    (vfioFd.checkExtension hostOk7 fd3 9999).err = some Error.EINVAL ∧
    (vfioFd.checkExtension hostOk7 fd3 9999).hostCalls = [] := by
  have h1 := checkExtension_allowlist_one_host_call hostOk7 fd3 1
  have h2 := checkExtension_allowlist_one_host_call hostOk7 fd3 9999
  have ha := h1.1 (by decide)
  have hb := h2.2 (by decide)
  exact ⟨ha.1, (ha.2 7 rfl).1, (ha.2 7 rfl).2, hb.1, hb.2⟩

/-- C3: For every control command other than the extension-check
command, `dispatch-control` (`Ioctl`) on the Control Descriptor returns
a not-supported error, makes no host call, and accesses no guest
memory; the extension-check command is the only command that is
dispatched. -/
theorem ioctl_unrecognized_enosys
    (host : HostIoctl) (fd : vfioFd) (t : Task) (args : SyscallArguments)
    (h : argUint args.arg1 ≠ VFIO_CHECK_EXTENSION) :
    vfioFd.Ioctl host fd { task := some t } args =
      { outcome := IoctlOutcome.ret 0 (some Error.ENOSYS)
        hostCalls := []
        guestMemAccesses := []
        logs := [] } := by
  simp [vfioFd.Ioctl, h]

/-- Witness for C3 at a concrete input: command code 0xBEEF is rejected
with `ENOSYS`, no host call, and no guest memory access. -/
theorem ioctl_unrecognized_enosys_witness :
    argUint 0xBEEF ≠ VFIO_CHECK_EXTENSION ∧
    vfioFd.Ioctl hostOk7 fd3 { task := some { id := 0 } }
        { arg0 := 0, arg1 := 0xBEEF, arg2 := 0, arg3 := 0, arg4 := 0, arg5 := 0 } =
      { outcome := IoctlOutcome.ret 0 (some Error.ENOSYS)
        hostCalls := []
        guestMemAccesses := []
        logs := [] } :=
  ⟨by decide, ioctl_unrecognized_enosys hostOk7 fd3 { id := 0 }
    { arg0 := 0, arg1 := 0xBEEF, arg2 := 0, arg3 := 0, arg4 := 0, arg5 := 0 }
    (by decide)⟩

/-- C5: `Release` of a Control Descriptor performs exactly three steps
in this fixed order: first it unsubscribes the host descriptor from the
readiness-notification facility, then it broadcasts a hang-up event to
all currently registered waiters, and only then does it close the host
file descriptor; every registered waiter thus observes hang-up before
the descriptor becomes invalid. -/
theorem release_order_hup_before_close (s : vfioFd) :
    s.Release = [ReleaseStep.removeNotifier s.hostFd,
                 ReleaseStep.notifyWaiters EventHUp s.queue,
                 ReleaseStep.closeHost s.hostFd] ∧
    ∀ e, e ∈ s.queue →
      ∃ i j, i < j ∧ deliversHUpAt s.Release i e ∧ closesAt s.Release j s.hostFd :=
  ⟨rfl, fun e he => ⟨1, 2, by omega, ⟨s.queue, rfl, he⟩, rfl⟩⟩

/-- Witness for C5 at a concrete input: a descriptor with one registered
waiter releases in the fixed order, and the waiter is notified of
hang-up at an earlier step than the close. -/
theorem release_order_hup_before_close_witness :
    vfioFd.Release { hostFd := 3, queue := [{ id := 1, mask := 5 }], hostSub := 5 } =
      [ReleaseStep.removeNotifier 3,
       ReleaseStep.notifyWaiters EventHUp [{ id := 1, mask := 5 }],
       ReleaseStep.closeHost 3] ∧
    ∃ i j, i < j ∧
      deliversHUpAt
        (vfioFd.Release { hostFd := 3, queue := [{ id := 1, mask := 5 }], hostSub := 5 })
        i { id := 1, mask := 5 } ∧
      closesAt
        (vfioFd.Release { hostFd := 3, queue := [{ id := 1, mask := 5 }], hostSub := 5 })
        j 3 := by
  have h := release_order_hup_before_close
    { hostFd := 3, queue := [{ id := 1, mask := 5 }], hostSub := 5 }
  exact ⟨h.1, h.2 { id := 1, mask := 5 } (by simp)⟩

/-- C6: `EventRegister` on a Control Descriptor is atomic with respect
to failure: it adds the waiter entry to the internal queue and then
resynchronizes the host-level subscription; if the host subscription
update fails, the entry is removed from the queue again (restoring the
queue — and the whole descriptor state — to its prior state) and the
error is returned, and if the update succeeds the entry remains
registered and no error is returned. -/
theorem eventRegister_atomic (s : vfioFd) (e : Entry) (errno : Nat)
    (h : e ∉ s.queue) :
    vfioFd.EventRegister (some errno) s e = (s, some errno) ∧
    vfioFd.EventRegister none s e =
      ({ s with queue := s.queue ++ [e]
                hostSub := queueMask (s.queue ++ [e]) }, none) := by
  constructor
  · show ({ s with queue := queueRemove (queuePush s.queue e) e }, some errno) =
      (s, some errno)
    rw [queueRemove, queuePush, erase_append_singleton s.queue e h]
  · rfl

/-- Witness for C6 at a concrete input: registering a fresh waiter on a
descriptor with an empty queue rolls back fully when the host update
fails with errno 5, and stays registered when it succeeds. -/
theorem eventRegister_atomic_witness :
    ({ id := 1, mask := 5 } : Entry) ∉ fd3.queue ∧
    vfioFd.EventRegister (some 5) fd3 { id := 1, mask := 5 } = (fd3, some 5) ∧
    vfioFd.EventRegister none fd3 { id := 1, mask := 5 } =
      ({ hostFd := 3, queue := [{ id := 1, mask := 5 }], hostSub := 5 }, none) := by
  have h := eventRegister_atomic fd3 { id := 1, mask := 5 } 5 (by decide)
  refine ⟨by decide, h.1, ?_⟩
  rw [h.2]
  decide

/-- C7: `EventUnregister` on a Control Descriptor never returns an
error: it removes the waiter entry from the internal queue and
resynchronizes the host-level subscription, and if that host
subscription update fails it aborts fatally (panics) rather than
returning or continuing; every run either panics or yields an updated
state. -/
theorem eventUnregister_panics_on_failure (res : Option Nat) (s : vfioFd)
    (e : Entry) :
    (∀ errno, vfioFd.EventUnregister (some errno) s e =
      UnregisterOutcome.panicked ("UpdateFD:" ++ toString errno)) ∧
    vfioFd.EventUnregister none s e =
      UnregisterOutcome.ok
        { s with queue := queueRemove s.queue e
                 hostSub := queueMask (queueRemove s.queue e) } ∧
    ((∃ s2, vfioFd.EventUnregister res s e = UnregisterOutcome.ok s2) ∨
     (∃ m, vfioFd.EventUnregister res s e = UnregisterOutcome.panicked m)) := by
  refine ⟨fun errno => rfl, rfl, ?_⟩
  cases res with
  | none => exact Or.inl ⟨_, rfl⟩
  | some errno => exact Or.inr ⟨_, rfl⟩

/-- C8: `Ioctl` invoked without an active task context aborts fatally
(panics) for every command code, including unrecognized ones, rather
than returning a recoverable error; with a task context present, the
abort branch is unreachable — the call always returns a value/error
pair. -/
theorem ioctl_panics_without_task
    (host : HostIoctl) (fd : vfioFd) (args : SyscallArguments) (t : Task) :
    (vfioFd.Ioctl host fd { task := none } args).outcome =
      IoctlOutcome.panicked "Ioctl should be called from a task context" ∧
    ∃ v e, (vfioFd.Ioctl host fd { task := some t } args).outcome =
      IoctlOutcome.ret v e := by
  refine ⟨rfl, ?_⟩
  by_cases h : argUint args.arg1 = VFIO_CHECK_EXTENSION
  · exact ⟨(vfioFd.checkExtension host fd (argInt args.arg2)).ret,
      (vfioFd.checkExtension host fd (argInt args.arg2)).err,
      by simp [vfioFd.Ioctl, h]⟩
  · exact ⟨0, some Error.ENOSYS, by simp [vfioFd.Ioctl, h]⟩

/-- C9: Registering a waiter and then unregistering it (with the host
subscription update succeeding both times) restores both the internal
waiter queue and the host readiness subscription to their prior state,
given that the entry was not already registered and the host
subscription was in sync with the waiter set. -/
theorem register_unregister_roundtrip (s : vfioFd) (e : Entry)
    (h1 : e ∉ s.queue) (h2 : s.hostSub = queueMask s.queue) :
    vfioFd.EventUnregister none (vfioFd.EventRegister none s e).1 e =
      UnregisterOutcome.ok s := by
  obtain ⟨fd, q, sub⟩ := s
  simp only at h1 h2
  subst h2
  show UnregisterOutcome.ok
      { hostFd := fd, queue := (q ++ [e]).erase e,
        hostSub := queueMask ((q ++ [e]).erase e) } =
    UnregisterOutcome.ok { hostFd := fd, queue := q, hostSub := queueMask q }
  rw [erase_append_singleton q e h1]

/-- Witness for C9 at a concrete input: on a descriptor with an empty,
in-sync queue, register-then-unregister of one waiter is the identity. -/
theorem register_unregister_roundtrip_witness :
    ({ id := 1, mask := 5 } : Entry) ∉ fd3.queue ∧
    fd3.hostSub = queueMask fd3.queue ∧
    vfioFd.EventUnregister none
        (vfioFd.EventRegister none fd3 { id := 1, mask := 5 }).1
        { id := 1, mask := 5 } =
      UnregisterOutcome.ok fd3 :=
  ⟨by decide, by decide,
    register_unregister_roundtrip fd3 { id := 1, mask := 5 } (by decide) (by decide)⟩

/-- C10: Whenever `Ioctl` or `checkExtension` returns a non-nil error
(unrecognized command, disallowed extension code, or host-call
failure), the accompanying numeric result value is exactly 0 — the
guest never receives a nonzero result value together with an error. -/
theorem error_result_always_zero
    (host : HostIoctl) (fd : vfioFd) (ctx : Context) (args : SyscallArguments)
    (ext : Int) :
    ((vfioFd.checkExtension host fd ext).err ≠ none →
      (vfioFd.checkExtension host fd ext).ret = 0) ∧
    (∀ v e', (vfioFd.Ioctl host fd ctx args).outcome =
        IoctlOutcome.ret v (some e') → v = 0) := by
  refine ⟨checkExtension_err_ret_zero host fd ext, ?_⟩
  intro v e' hret
  obtain ⟨task⟩ := ctx
  cases task with
  | none => exact absurd hret (by simp [vfioFd.Ioctl])
  | some t =>
    by_cases h : argUint args.arg1 = VFIO_CHECK_EXTENSION
    · have hout : (vfioFd.Ioctl host fd { task := some t } args).outcome =
        IoctlOutcome.ret (vfioFd.checkExtension host fd (argInt args.arg2)).ret
          (vfioFd.checkExtension host fd (argInt args.arg2)).err := by
        simp [vfioFd.Ioctl, h]
      rw [hout] at hret
      injection hret with hv he
      rw [← hv]
      exact checkExtension_err_ret_zero host fd (argInt args.arg2) (by rw [he]; simp)
    · have hout : (vfioFd.Ioctl host fd { task := some t } args).outcome =
        IoctlOutcome.ret 0 (some Error.ENOSYS) := by
        simp [vfioFd.Ioctl, h]
      rw [hout] at hret
      injection hret with hv he
      exact hv.symm

/-- Witness for C10 at concrete inputs: the rejected extension code 9999
yields result 0, and the rejected command 0xBEEF yields result 0. -/
theorem error_result_always_zero_witness :
    (vfioFd.checkExtension hostOk7 fd3 9999).ret = 0 ∧ (0 : Nat) = 0 := by
  have h := error_result_always_zero hostOk7 fd3 { task := some { id := 0 } }
    { arg0 := 0, arg1 := 0xBEEF, arg2 := 0, arg3 := 0, arg4 := 0, arg5 := 0 } 9999
  exact ⟨h.1 (by decide), h.2 0 Error.ENOSYS (by decide)⟩

end Tpuproxy
